import Mathlib

/-
Verification of the Saksoft HR Agent relay (src/main.py): a single
authenticated FastAPI endpoint that forwards a chat message to an external
agent API and relays the reply. This file shallowly embeds the data model
and the `/chat` handler (token verification, payload construction, upstream
call outcome handling, exception translation) and the dormant streaming
generator, and proves the specification's claims about them.
-/

namespace HRRelay

/-- JSON values, as produced by `json.loads` / sent by the handler.
Numbers are modelled as integers (the claims use no fractional values);
objects are association lists with distinct keys (Python dicts). -/
inductive Json where
  | null
  | bool (b : Bool)
  | num (n : Int)
  | str (s : String)
  | arr (xs : List Json)
  | obj (kvs : List (String × Json))

/-- First-match key lookup in a parsed JSON object (Python dict lookup;
keys of a dict are distinct, so first match is the match). -/
def lookupKey (k : String) : List (String × Json) → Option Json
  | [] => none
  | (k', v) :: rest => if k' = k then some v else lookupKey k rest

/-- Is `needle` a substring of `hay`? Models Python `needle in hay` on
strings (character-list infix test). -/
def strContainsSub (hay needle : String) : Bool :=
  go needle.data hay.data
where
  go (n : List Char) : List Char → Bool
    | [] => n.isPrefixOf []
    | c :: cs => n.isPrefixOf (c :: cs) || go n cs

/-- Python `s in j` for a string `s` and a value `j` from `json.loads`:
key membership for dicts, element equality for lists, substring test for
strings; a `TypeError` (modelled as `.error`) for non-container values
(`int`, `float`, `bool`, `None`). -/
def pyIn (s : String) : Json → Except String Bool
  | .obj kvs => .ok (lookupKey s kvs).isSome
  | .arr xs => .ok (xs.any (fun x => match x with | .str t => t == s | _ => false))
  | .str t => .ok (strContainsSub t s)
  | _ => .error "TypeError: argument of type is not iterable"

/-- Python `j[s]` for a string key: dict lookup (`KeyError` when absent),
`TypeError` for any non-dict value (string indices must be integers, etc.). -/
def pyGetItem (j : Json) (s : String) : Except String Json :=
  match j with
  | .obj kvs =>
      match lookupKey s kvs with
      | some v => .ok v
      | none => .error "KeyError: key absent"
  | _ => .error "TypeError: indices must be integers"

/-- The process configuration read through `os.getenv` in src/main.py:
each field is `none` when the environment variable is unset. -/
structure Config where
  bearer_token : Option String
  api_key : Option String
  agent_api_url : Option String
  user_id : Option String
  agent_id : Option String

/-- Inbound request body, `class ChatRequest(BaseModel)` (src/main.py:37-39):
two plain `str` fields, no other constraint declared. -/
structure ChatRequest where
  session_id : String
  message : String
deriving DecidableEq

/-- Pydantic deserialization of the inbound body into `ChatRequest`: both
fields must be present and be JSON strings, else a 422 schema-validation
error. The source declares the fields as bare `str` with no length
constraint, so no further check is performed. -/
def validateChatRequest (body : Json) : Except Nat ChatRequest :=
  match lookupKey "session_id" (match body with | .obj kvs => kvs | _ => []),
        lookupKey "message" (match body with | .obj kvs => kvs | _ => []) with
  | some (.str s), some (.str m) => .ok { session_id := s, message := m }
  | _, _ => .error 422

/-- The outbound payload dict built at src/main.py:64-72. -/
structure Payload where
  user_id : String
  agent_id : String
  session_id : String
  message : String
  system_prompt_variables : List (String × Json)
  filter_variables : List (String × Json)
  features : List Json

/-- Payload construction (src/main.py:64-72): `user_id`/`agent_id` from
configuration with defaults `"default_user"` / `""`, `session_id`/`message`
copied from the request, the remaining fields empty literals. -/
def buildPayload (cfg : Config) (req : ChatRequest) : Payload :=
  { user_id := cfg.user_id.getD "default_user"
    agent_id := cfg.agent_id.getD ""
    session_id := req.session_id
    message := req.message
    system_prompt_variables := []
    filter_variables := []
    features := [] }

/-- Outbound request headers (src/main.py:59-62). -/
def buildHeaders (cfg : Config) : List (String × Option String) :=
  [("Content-Type", some "application/json"), ("x-api-key", cfg.api_key)]

/-- Outcome of `client.post` followed by `response.json()`: either an HTTP
response with a status code and a body (`.ok` the parsed JSON, `.error` the
`json.JSONDecodeError` message when the body does not parse), or a raised
transport exception (network failure, timeout, ...). -/
inductive UpstreamOutcome where
  | response (status : Nat) (body : Except String Json)
  | exn (msg : String)

/-- Python exceptions that can escape the `try` block of the handler. -/
inductive PyExc where
  | httpStatusError (status : Nat) (msg : String)
  | httpException (status : Nat) (detail : String)
  | other (msg : String)
deriving DecidableEq

/-- The value of `str(e)` for each exception. `httpx.HTTPStatusError` carries its own
message string; Starlette's `HTTPException.__str__` is
`f"\x7bstatus_code\x7d: \x7bdetail\x7d"`; any other exception is carried
with its message. -/
def pyStr : PyExc → String
  | .httpStatusError _ msg => msg
  | .httpException s d => toString s ++ ": " ++ d
  | .other msg => msg

/-- Models the message of the `httpx.HTTPStatusError` raised by
`response.raise_for_status()`: a string representation of the upstream
error naming its status code (the URL it also contains is abstracted). -/
def httpStatusErrorStr (status : Nat) : String :=
  "HTTP status error " ++ toString status ++ " for the upstream request"

/-- The body of the `try` block after the upstream call resolved
(src/main.py:82-88): `raise_for_status` on a non-2xx status, `response.json()`
(a parse failure raises), the `"response" not in result` check raising
`HTTPException(500, "Invalid response format from HR agent API")`, and on
success the returned dict with the single key `"response"`. -/
def handleOutcome : UpstreamOutcome → Except PyExc Json
  | .exn msg => .error (.other msg)
  | .response status body =>
      if 200 ≤ status ∧ status < 300 then
        match body with
        | .error msg => .error (.other msg)
        | .ok result =>
            match pyIn "response" result with
            | .error msg => .error (.other msg)
            | .ok false => .error (.httpException 500 "Invalid response format from HR agent API")
            | .ok true =>
                match pyGetItem result "response" with
                | .error msg => .error (.other msg)
                | .ok v => .ok (Json.obj [("response", v)])
      else
        .error (.httpStatusError status (httpStatusErrorStr status))

/-- What the handler sends to the caller: HTTP 200 with a JSON body, or an
`HTTPException` rendered as its status code and a `"detail"` string. -/
inductive HandlerResult where
  | ok (body : Json)
  | error (status : Nat) (detail : String)

/-- The exception translation of src/main.py:90-96: `except
httpx.HTTPStatusError` re-raises with the upstream status code and `str(e)`;
`except Exception` (which also catches an `HTTPException` raised inside the
`try`) re-raises `HTTPException(500, str(e))`. -/
def relayResult (out : UpstreamOutcome) : HandlerResult :=
  match handleOutcome out with
  | .ok body => .ok body
  | .error (.httpStatusError s m) => .error s (pyStr (.httpStatusError s m))
  | .error e => .error 500 (pyStr e)

/-- The handler `chat_with_agent` (src/main.py:54-96) after token verification: build
the payload, issue the single upstream call (`upstream` maps the posted
payload to its outcome), translate the outcome. -/
def chat_with_agent (cfg : Config) (req : ChatRequest)
    (upstream : Payload → UpstreamOutcome) : HandlerResult :=
  relayResult (upstream (buildPayload cfg req))

/-- Token verification, `verify_token` (src/main.py:45-52): the presented credential is compared
with `!=` against `os.getenv("BEARER_TOKEN")` (an `Optional[str]`, so a
present credential never equals an unset token); mismatch raises
`HTTPException(401, "Invalid or missing Bearer token")`. -/
def verify_token (expected : Option String) (cred : String) :
    Except (Nat × String) String :=
  if some cred ≠ expected then
    .error (401, "Invalid or missing Bearer token")
  else
    .ok cred

/-- The full `/chat` pipeline. The bearer credential is `none` when the
`Authorization` header is absent or malformed. Modelled from the spec:
the framework's bearer extraction (FastAPI's `HTTPBearer`, not part of
src/main.py) rejects a missing or malformed header with the same 401
Unauthorized error before the handler runs; a present credential is then
checked by `verify_token` and the handler body runs only on success. -/
def chatEndpoint (cfg : Config) (cred : Option String) (req : ChatRequest)
    (upstream : Payload → UpstreamOutcome) : HandlerResult :=
  match cred with
  | none => .error 401 "Invalid or missing Bearer token"
  | some c =>
      match verify_token cfg.bearer_token c with
      | .error (s, d) => .error s d
      | .ok _ => chat_with_agent cfg req upstream

/-- One line of the upstream stream as seen by `stream_response`
(src/main.py:98-111): its text and the result of `json.loads` on it
(`none` models a `JSONDecodeError`). The parse result is carried as data
because the embedding contains no JSON text parser. -/
structure StreamLine where
  text : String
  parsed : Option Json

/-- The dormant streaming generator, `stream_response` (src/main.py:98-111):
empty lines are skipped; a `JSONDecodeError` is caught and the loop
continues; a parsed chunk with `"response" in data` yields `data["response"]`,
one without is skipped. Any other exception (e.g. the `TypeError` from `in`
or indexing on a non-dict chunk) is not caught: the generator stops and
raises, modelled by the second component holding the exception message. -/
def stream_response : List StreamLine → List Json × Option String
  | [] => ([], none)
  | l :: rest =>
      if l.text = "" then stream_response rest
      else
        match l.parsed with
        | none => stream_response rest
        | some data =>
            match pyIn "response" data with
            | .error msg => ([], some msg)
            | .ok false => stream_response rest
            | .ok true =>
                match pyGetItem data "response" with
                | .error msg => ([], some msg)
                | .ok v =>
                    let r := stream_response rest
                    (v :: r.1, r.2)

/-- Holds when every chunk of the stream that parses at all parses to a
JSON object (the shape the upstream contract promises). -/
def allParsedObj (lines : List StreamLine) : Bool :=
  lines.all (fun l =>
    match l.parsed with
    | some (.obj _) => true
    | some _ => false
    | none => true)

/-- The values the spec says the stream should yield: for each non-empty,
JSON-parsable line, the value of its `response` key when present. -/
def specStreamValues (lines : List StreamLine) : List Json :=
  lines.filterMap (fun l =>
    if l.text = "" then none
    else
      match l.parsed with
      | some (.obj kvs) => lookupKey "response" kvs
      | _ => none)

/-- The body returned by `health_check` (src/main.py:154-156). -/
def health_check : Json :=
  Json.obj [("status", Json.str "healthy")]

end HRRelay

namespace HRRelay

/- ------------------------------------------------------------------ -/
/- Concrete fixtures shared by the witnesses                           -/
/- ------------------------------------------------------------------ -/

/-- A configuration with every variable set (expected token `"tok"`). -/
def cfgW : Config :=
  { bearer_token := some "tok", api_key := some "k"
    agent_api_url := some "http://agent", user_id := some "u7", agent_id := some "a3" }

/-- A configuration whose `BEARER_TOKEN` is unset. -/
def cfgNoTok : Config :=
  { bearer_token := none, api_key := none
    agent_api_url := none, user_id := none, agent_id := none }

/-- A concrete inbound request. -/
def reqW : ChatRequest := { session_id := "s1", message := "hi" }

/-- An upstream that always answers 200 with a well-formed body. -/
def uW : Payload → UpstreamOutcome :=
  fun _ => .response 200 (.ok (Json.obj [("response", Json.str "Hello!")]))

/-- A concrete stream in which every parsable chunk is a JSON object:
an empty keep-alive line, an unparsable line, two objects carrying a
`response` and one without. -/
def linesW : List StreamLine :=
  [ { text := "", parsed := none }
  , { text := "not json", parsed := none }
  , { text := "a", parsed := some (Json.obj [("response", Json.str "r1")]) }
  , { text := "b", parsed := some (Json.obj [("x", Json.null)]) }
  , { text := "c", parsed := some (Json.obj [("response", Json.str "r2")]) } ]

/- ------------------------------------------------------------------ -/
/- Claims                                                              -/
/- ------------------------------------------------------------------ -/

/-- C1: for every authenticated /chat request whose upstream call returns a
2xx status with a JSON object body containing a `response` key bound to `v`,
the handler returns HTTP 200 with body exactly `\x7b"response": v\x7d` —
the singleton object, so no other upstream field reaches the caller. -/
theorem chat_success_relays_response
    (cfg : Config) (cred : String) (req : ChatRequest)
    (u : Payload → UpstreamOutcome) (s : Nat) (kvs : List (String × Json)) (v : Json)
    (hauth : cfg.bearer_token = some cred)
    (hs : 200 ≤ s ∧ s < 300)
    (hup : u (buildPayload cfg req) = .response s (.ok (Json.obj kvs)))
    (hv : lookupKey "response" kvs = some v) :
    chatEndpoint cfg (some cred) req u = .ok (Json.obj [("response", v)]) := by
  simp [chatEndpoint, verify_token, hauth, chat_with_agent, relayResult,
    handleOutcome, hup, hs, pyIn, pyGetItem, hv]

/-- Witness for C1 at the spec's example: upstream 200
`\x7b"response":"Hello!"\x7d` yields 200 `\x7b"response":"Hello!"\x7d`. -/
theorem chat_success_relays_response_witness :
    chatEndpoint cfgW (some "tok") reqW uW
      = .ok (Json.obj [("response", Json.str "Hello!")]) :=
  chat_success_relays_response cfgW "tok" reqW uW 200 _ _ rfl (by decide) rfl rfl

/-- C2: with a correct bearer token, the payload posted upstream carries the
inbound `session_id` and `message` unchanged, empty
`system_prompt_variables`, `filter_variables` and `features`, and
`user_id`/`agent_id` taken from configuration (defaults `"default_user"`
and `""`), independent of the caller's input; and the endpoint's result is
exactly the translation of the upstream outcome at that payload. -/
theorem payload_passthrough
    (cfg : Config) (cred : String) (req : ChatRequest)
    (hauth : cfg.bearer_token = some cred) :
    (buildPayload cfg req).session_id = req.session_id ∧
    (buildPayload cfg req).message = req.message ∧
    (buildPayload cfg req).system_prompt_variables = [] ∧
    (buildPayload cfg req).filter_variables = [] ∧
    (buildPayload cfg req).features = [] ∧
    (buildPayload cfg req).user_id = cfg.user_id.getD "default_user" ∧
    (buildPayload cfg req).agent_id = cfg.agent_id.getD "" ∧
    ∀ u : Payload → UpstreamOutcome,
      chatEndpoint cfg (some cred) req u = relayResult (u (buildPayload cfg req)) := by
  refine ⟨rfl, rfl, rfl, rfl, rfl, rfl, rfl, fun u => ?_⟩
  simp [chatEndpoint, verify_token, hauth, chat_with_agent]

/-- Witness for C2 at a concrete configuration and request. -/
theorem payload_passthrough_witness :
    (buildPayload cfgW reqW).session_id = "s1" ∧
    (buildPayload cfgW reqW).message = "hi" ∧
    (buildPayload cfgW reqW).system_prompt_variables = [] ∧
    (buildPayload cfgW reqW).filter_variables = [] ∧
    (buildPayload cfgW reqW).features = [] ∧
    (buildPayload cfgW reqW).user_id = (cfgW.user_id).getD "default_user" ∧
    (buildPayload cfgW reqW).agent_id = (cfgW.agent_id).getD "" ∧
    ∀ u : Payload → UpstreamOutcome,
      chatEndpoint cfgW (some "tok") reqW u = relayResult (u (buildPayload cfgW reqW)) :=
  payload_passthrough cfgW "tok" reqW rfl

/-- C3: a request whose credential is absent, or present but different from
the configured token, is rejected with 401 and detail
`"Invalid or missing Bearer token"`; the conclusion holds for every
`upstream` function, i.e. the result never depends on the upstream call,
which is the embedding's rendering of the call never being issued. -/
theorem auth_rejects_before_upstream
    (cfg : Config) (cred : Option String) (req : ChatRequest)
    (u : Payload → UpstreamOutcome)
    (h : ∀ c, cred = some c → cfg.bearer_token ≠ some c) :
    chatEndpoint cfg cred req u = .error 401 "Invalid or missing Bearer token" := by
  cases cred with
  | none => rfl
  | some c =>
      have hc : ¬ some c = cfg.bearer_token := fun hh => h c rfl hh.symm
      simp [chatEndpoint, verify_token, hc]

/-- Witness for C3: a present but wrong credential is rejected. -/
theorem auth_rejects_before_upstream_witness :
    chatEndpoint cfgW (some "wrong") reqW uW
      = .error 401 "Invalid or missing Bearer token" :=
  auth_rejects_before_upstream cfgW (some "wrong") reqW uW
    (by intro c hc; injection hc with h1; subst h1; decide)

/-- C4: an authenticated request whose upstream call resolves with a non-2xx
status `s` fails with an HTTP error of that same status code, whose detail
is the string representation of the `HTTPStatusError` (a string naming the
upstream status); the single upstream outcome is translated directly, with
no retry. -/
theorem upstream_error_status_passthrough
    (cfg : Config) (cred : String) (req : ChatRequest)
    (u : Payload → UpstreamOutcome) (s : Nat) (body : Except String Json)
    (hauth : cfg.bearer_token = some cred)
    (hup : u (buildPayload cfg req) = .response s body)
    (hs : ¬(200 ≤ s ∧ s < 300)) :
    chatEndpoint cfg (some cred) req u = .error s (httpStatusErrorStr s) := by
  simp [chatEndpoint, verify_token, hauth, chat_with_agent, relayResult,
    handleOutcome, hup, hs, pyStr]

/-- Witness for C4 at the spec's example: upstream 503 with body
`\x7b"error":"unavailable"\x7d` yields 503 with the status-error detail. -/
theorem upstream_error_status_passthrough_witness :
    chatEndpoint cfgW (some "tok") reqW
      (fun _ => .response 503 (.ok (Json.obj [("error", Json.str "unavailable")])))
      = .error 503 (httpStatusErrorStr 503) :=
  upstream_error_status_passthrough cfgW "tok" reqW _ 503 _ rfl rfl (by decide)

/-- C5 (code bug, evaluated at the failing input): on an authenticated
request with upstream 200 and body `\x7b"foo":"bar"\x7d` (no `response`
key), line 86 raises `HTTPException(500, "Invalid response format from HR
agent API")` inside the `try`, but `except Exception` catches it
(`HTTPException` subclasses `Exception`) and re-raises
`HTTPException(500, str(e))`, so the caller sees detail
`"500: Invalid response format from HR agent API"`, not the intended
detail exactly. -/
theorem chat_missing_response_key_detail :
    chatEndpoint cfgW (some "tok") reqW
      (fun _ => .response 200 (.ok (Json.obj [("foo", Json.str "bar")])))
      = .error 500 ("500: Invalid response format from HR agent API") := rfl

/-- C6: an authenticated request whose try-block raises any exception other
than an `httpx.HTTPStatusError` — transport failure, JSON parse failure, or
the re-caught `HTTPException` — fails with HTTP 500 whose detail is that
exception's string representation; every failure becomes a
`HandlerResult.error` with a status code and a detail string. -/
theorem non_status_exception_500
    (cfg : Config) (cred : String) (req : ChatRequest)
    (u : Payload → UpstreamOutcome) (e : PyExc)
    (hauth : cfg.bearer_token = some cred)
    (he : handleOutcome (u (buildPayload cfg req)) = .error e)
    (hne : ∀ s m, e ≠ PyExc.httpStatusError s m) :
    chatEndpoint cfg (some cred) req u = .error 500 (pyStr e) := by
  have h1 : chatEndpoint cfg (some cred) req u
      = relayResult (u (buildPayload cfg req)) := by
    simp [chatEndpoint, verify_token, hauth, chat_with_agent]
  rw [h1]
  unfold relayResult
  rw [he]
  cases e with
  | httpStatusError s m => exact absurd rfl (hne s m)
  | httpException s d => rfl
  | other m => rfl

/-- Witness for C6: a transport exception (connection failure) is surfaced
as a 500 whose detail is the exception's message. -/
theorem non_status_exception_500_witness :
    chatEndpoint cfgW (some "tok") reqW (fun _ => .exn "ConnectError: refused")
      = .error 500 (pyStr (PyExc.other "ConnectError: refused")) :=
  non_status_exception_500 cfgW "tok" reqW _ (PyExc.other "ConnectError: refused")
    rfl rfl (fun _ _ h => nomatch h)

/-- C7 counterexample: an inbound body with empty `session_id` and `message`
is NOT rejected by deserialization — the source declares both fields as
bare `str`, so validation succeeds and the handler body runs on the empty
strings (here against a healthy upstream, returning 200). -/
theorem empty_fields_pass_validation :
    validateChatRequest
        (Json.obj [("session_id", Json.str ""), ("message", Json.str "")])
      = .ok { session_id := "", message := "" } ∧
    chatEndpoint cfgW (some "tok") { session_id := "", message := "" } uW
      = .ok (Json.obj [("response", Json.str "Hello!")]) :=
  ⟨rfl, rfl⟩

/-- C7 as amended: deserialization into `ChatRequest` only requires both
fields to be present and to be strings; any strings — empty ones
included — are accepted, so no non-emptiness is enforced. -/
theorem validation_accepts_any_strings (s m : String) :
    validateChatRequest
        (Json.obj [("session_id", Json.str s), ("message", Json.str m)])
      = .ok { session_id := s, message := m } := by
  simp [validateChatRequest, lookupKey]

/-- C8 counterexample: a chunk that parses to non-object JSON (here the
number 5) lacks a `response` field, yet the generator does not skip it:
`"response" in data` raises a `TypeError`, the generator aborts, and the
`response` value of the following well-formed chunk is never yielded. -/
theorem stream_nonobject_chunk_raises :
    stream_response
        [ { text := "5", parsed := some (Json.num 5) }
        , { text := "ok", parsed := some (Json.obj [("response", Json.str "hi")]) } ]
      = ([], some "TypeError: argument of type is not iterable") := rfl

/-- C8 as amended: over streams in which every JSON-parsable chunk parses to
a JSON object, the generator yields exactly, in order, the `response` value
of each object containing that key, and silently skips empty lines,
unparsable chunks and objects without the key; chunks parsing to non-object
JSON are outside this guarantee (they can raise instead of being skipped). -/
theorem stream_yields_responses_of_object_chunks
    (lines : List StreamLine) (h : allParsedObj lines = true) :
    stream_response lines = (specStreamValues lines, none) := by
  induction lines with
  | nil => rfl
  | cons l rest ih =>
      simp only [allParsedObj, List.all_cons, Bool.and_eq_true] at h
      obtain ⟨hl, hrest⟩ := h
      have ih' : stream_response rest = (specStreamValues rest, none) := ih hrest
      by_cases ht : l.text = ""
      · simp [stream_response, specStreamValues, List.filterMap_cons, ht, ih']
      · cases hp : l.parsed with
        | none =>
            simp [stream_response, specStreamValues, List.filterMap_cons, ht, hp, ih']
        | some j =>
            cases j with
            | obj kvs =>
                cases hk : lookupKey "response" kvs with
                | none =>
                    simp [stream_response, specStreamValues, List.filterMap_cons,
                      ht, hp, hk, pyIn, ih']
                | some v =>
                    simp [stream_response, specStreamValues, List.filterMap_cons,
                      ht, hp, hk, pyIn, pyGetItem, ih']
            | null => rw [hp] at hl; exact absurd hl (by simp)
            | bool b => rw [hp] at hl; exact absurd hl (by simp)
            | num n => rw [hp] at hl; exact absurd hl (by simp)
            | str t => rw [hp] at hl; exact absurd hl (by simp)
            | arr xs => rw [hp] at hl; exact absurd hl (by simp)

/-- Witness for the amended C8 on a concrete stream: the two `response`
values are yielded in order, everything else is skipped, no error. -/
theorem stream_yields_responses_witness :
    stream_response linesW = ([Json.str "r1", Json.str "r2"], none) :=
  stream_yields_responses_of_object_chunks linesW rfl

/-- C9: when `BEARER_TOKEN` is unset, the expected token is the absent
value, which no presented string ever equals, so every credential is
rejected with 401. -/
theorem unset_bearer_rejects_all
    (cfg : Config) (c : String) (req : ChatRequest) (u : Payload → UpstreamOutcome)
    (h : cfg.bearer_token = none) :
    chatEndpoint cfg (some c) req u = .error 401 "Invalid or missing Bearer token" := by
  simp [chatEndpoint, verify_token, h]

/-- Witness for C9 at an unset-token configuration. -/
theorem unset_bearer_rejects_all_witness :
    chatEndpoint cfgNoTok (some "anything") reqW uW
      = .error 401 "Invalid or missing Bearer token" :=
  unset_bearer_rejects_all cfgNoTok "anything" reqW uW rfl

/-- C10: the handler checks only the presence of the `response` key, never
its type: whatever JSON value `v` the upstream 2xx object binds it to —
object, number, null, array, string — the handler returns 200 with
`\x7b"response": v\x7d`, relaying `v` unchanged. -/
theorem response_value_any_type
    (cfg : Config) (cred : String) (req : ChatRequest)
    (u : Payload → UpstreamOutcome) (v : Json) (extra : List (String × Json))
    (hauth : cfg.bearer_token = some cred)
    (hup : u (buildPayload cfg req)
      = .response 200 (.ok (Json.obj (("response", v) :: extra)))) :
    chatEndpoint cfg (some cred) req u = .ok (Json.obj [("response", v)]) := by
  simp [chatEndpoint, verify_token, hauth, chat_with_agent, relayResult,
    handleOutcome, hup, pyIn, pyGetItem, lookupKey]

/-- Witness for C10 with a non-string `response` value (an array) and an
extra upstream field that is not relayed. -/
theorem response_value_any_type_witness :
    chatEndpoint cfgW (some "tok") reqW
      (fun _ => .response 200 (.ok (Json.obj
        [("response", Json.arr [Json.num 1, Json.null]), ("usage", Json.num 3)])))
      = .ok (Json.obj [("response", Json.arr [Json.num 1, Json.null])]) :=
  response_value_any_type cfgW "tok" reqW _ (Json.arr [Json.num 1, Json.null])
    [("usage", Json.num 3)] rfl rfl

end HRRelay
